import Mathlib

/-!
Shallow embedding of the nation/alliance revenue calculator of `src/bank.py`
(`calculate_nation_revenue`, `calculate_alliance_revenue` and the per-city
formulas they contain).  Machine floats are modelled by exact rationals;
Python `round` (2-decimal rounding of the base food production) is modelled
by `round` on `ℚ` — no claim depends on the tie-breaking rule.  `math.log`
of the city age is carried as an explicit rational input `lnAge`
(the source clamps `age_days` to at least 1, so `lnAge ≥ 0` there).
-/

namespace SunTzu

/-- The eleven tradable resources of the `production` dictionary
(`bank.py` lines 428-440), in the dictionary's insertion order. -/
inductive Resource where
  | food | uranium | oil | iron | coal | bauxite
  | lead | aluminum | gasoline | munitions | steel
deriving DecidableEq, Repr

def Resource.all : List Resource :=
  [.food, .uranium, .oil, .iron, .coal, .bauxite,
   .lead, .aluminum, .gasoline, .munitions, .steel]

/-- One city as consumed by the per-city loop (`bank.py` lines 465-715).
`lnAge` stands for `math.log(age_days)` computed at lines 468-469. -/
structure City where
  infrastructure : ℚ
  land : ℚ
  lnAge : ℚ
  oil_refinery : ℕ
  steel_mill : ℕ
  aluminum_refinery : ℕ
  munitions_factory : ℕ
  uranium_mine : ℕ
  oil_well : ℕ
  iron_mine : ℕ
  coal_mine : ℕ
  bauxite_mine : ℕ
  lead_mine : ℕ
  farm : ℕ
  subway : ℕ
  stadium : ℕ
  shopping_mall : ℕ
  bank : ℕ
  supermarket : ℕ
  police_station : ℕ
  hospital : ℕ
  recycling_center : ℕ
  nuclear_power : ℕ
  coal_power : ℕ
  oil_power : ℕ
  wind_power : ℕ

/-- The nation fields used by `calculate_nation_revenue`. -/
structure Nation where
  continent : String
  color : String
  domestic_policy : String
  num_cities : ℕ
  soldiers : ℕ
  tanks : ℕ
  aircraft : ℕ
  ships : ℕ
  spies : ℕ
  missiles : ℕ
  nukes : ℕ
  offensive_wars_count : ℕ
  defensive_wars_count : ℕ
  bauxite_works : Bool
  emergency_gasoline_reserve : Bool
  iron_works : Bool
  uranium_enrichment_program : Bool
  specialized_police_training_program : Bool
  international_trade_center : Bool
  telecommunications_satellite : Bool
  clinical_research_center : Bool
  green_technologies : Bool
  arms_stockpile : Bool
  government_support_agency : Bool
  mass_irrigation : Bool
  fallout_shelter : Bool
  bureau_of_domestic_affairs : Bool
  recycling_initiative : Bool
  cities : List City

/-- Per-continent radiation levels from `game_info["radiation"]`. -/
structure Radiation where
  glob : ℚ
  northAmerica : ℚ
  southAmerica : ℚ
  asia : ℚ
  antarctica : ℚ
  europe : ℚ
  africa : ℚ
  australia : ℚ

/-- The game context: month of `game_date` and the radiation table. -/
structure GameInfo where
  month : ℕ
  rad : Radiation

/-- `radiation.get(nation["continent"], 0)` over the dict built at
`bank.py` lines 453-462. -/
def radiationOf (g : GameInfo) (continent : String) : ℚ :=
  if continent = "na" then g.rad.northAmerica
  else if continent = "sa" then g.rad.southAmerica
  else if continent = "as" then g.rad.asia
  else if continent = "an" then g.rad.antarctica
  else if continent = "eu" then g.rad.europe
  else if continent = "af" then g.rad.africa
  else if continent = "au" then g.rad.australia
  else 0

/-- `round(x * 100) / 100` of `bank.py` line 494: rounding to 2 decimals. -/
def round2 (q : ℚ) : ℚ := (round (q * 100) : ℤ) / 100

/-- `city_age_modifier = 1 + max(ln_age / 15, 0)` (line 470). -/
def cityAgeModifier (c : City) : ℚ := 1 + max (c.lnAge / 15) 0

/-- `base_population = infrastructure * 100` (line 473). -/
def cityBasePopulation (c : City) : ℚ := c.infrastructure * 100

/-- Food eaten by the population, subtracted from food at lines 476-477. -/
def cityFoodDemand (c : City) : ℚ :=
  cityBasePopulation c * cityBasePopulation c / 125000000 +
    (cityBasePopulation c * cityAgeModifier c - cityBasePopulation c) / 850

/-- Daily food production added at lines 479-524: specialization bonus,
land rate (mass irrigation / Antarctica), 2-decimal rounding, seasonal
modifier, radiation penalty, clamp at 0, times 12. -/
def cityFoodProduction (n : Nation) (g : GameInfo) (c : City) : ℚ :=
  let improvement_specialization_bonus : ℚ :=
    1 + (0.5 * ((c.farm : ℚ) - 1)) / (20 - 1)
  let rate0 : ℚ := if n.mass_irrigation then c.land / 400 else c.land / 500
  let food_production_rate : ℚ := if n.continent = "an" then rate0 * 0.5 else rate0
  let base_food_production : ℚ :=
    round2 ((c.farm : ℚ) * improvement_specialization_bonus * food_production_rate)
  let seasonal_modifier : ℚ :=
    if n.continent = "an" then 1
    else if n.continent = "sa" ∨ n.continent = "as" ∨ n.continent = "af" then
      (if g.month = 12 ∨ g.month = 1 ∨ g.month = 2 then 1.2
       else if g.month = 6 ∨ g.month = 7 ∨ g.month = 8 then 0.8 else 1)
    else
      (if g.month = 12 ∨ g.month = 1 ∨ g.month = 2 then 0.8
       else if g.month = 6 ∨ g.month = 7 ∨ g.month = 8 then 1.2 else 1)
  let radiation_index : ℚ := radiationOf g n.continent + g.rad.glob
  let fallout_shelter_multiplier : ℚ := if n.fallout_shelter then 0.85 else 1
  let radiation_penalty : ℚ := radiation_index / (-1000) * fallout_shelter_multiplier
  max (base_food_production * seasonal_modifier * (1 + radiation_penalty)) 0 * 12

/-- Nuclear-plant uranium consumption (`bank.py` lines 527-531):
`min((infra + 999) // 1000, nuclear_power * 2000 // 1000) * 2.4`.
`//` is Python floor division, here applied to the (possibly fractional)
infrastructure level. -/
def nuclearUraniumConsumption (c : City) : ℚ :=
  (min ⌊(c.infrastructure + 999) / 1000⌋ ((c.nuclear_power * 2000 / 1000 : ℕ) : ℤ) : ℤ) * 2.4

/-- Coal-plant coal consumption (lines 533-537):
`min((infra + 99) // 100, coal_power * 500 // 100) * 1.2`. -/
def coalPlantCoalConsumption (c : City) : ℚ :=
  (min ⌊(c.infrastructure + 99) / 100⌋ ((c.coal_power * 500 / 100 : ℕ) : ℤ) : ℤ) * 1.2

/-- Oil-plant oil consumption (lines 539-542), reusing the coal plants'
`(infra + 99) // 100` value. -/
def oilPlantOilConsumption (c : City) : ℚ :=
  (min ⌊(c.infrastructure + 99) / 100⌋ ((c.oil_power * 500 / 100 : ℕ) : ℤ) : ℤ) * 1.2

/-- `multipliers["oil"]` after the project checks of lines 545-567. -/
def multipliersOil (n : Nation) : ℚ := if n.emergency_gasoline_reserve then 2 else 1

/-- `multipliers["steel"]`. -/
def multipliersSteel (n : Nation) : ℚ := if n.iron_works then 1.36 else 1

/-- `multipliers["uranium"]`. -/
def multipliersUranium (n : Nation) : ℚ := if n.uranium_enrichment_program then 2 else 1

/-- `multipliers["aluminum"]`. -/
def multipliersAluminum (n : Nation) : ℚ := if n.bauxite_works then 1.36 else 1

/-- `multipliers["munitions"]`. -/
def multipliersMunitions (n : Nation) : ℚ := if n.arms_stockpile then 1.20 else 1

/-- Oil refinery oil consumption (line 571). -/
def oilRefineryOilConsumption (n : Nation) (c : City) : ℚ :=
  (3 * (c.oil_refinery : ℚ)) * (1 + (0.5 * ((c.oil_refinery : ℚ) - 1)) / (5 - 1)) *
    multipliersOil n

/-- Steel mill iron consumption (line 574). -/
def steelMillIronConsumption (n : Nation) (c : City) : ℚ :=
  (3 * (c.steel_mill : ℚ)) * (1 + (0.5 * ((c.steel_mill : ℚ) - 1)) / (5 - 1)) *
    multipliersSteel n

/-- Steel mill coal consumption (line 575). -/
def steelMillCoalConsumption (n : Nation) (c : City) : ℚ :=
  (3 * (c.steel_mill : ℚ)) * (1 + (0.5 * ((c.steel_mill : ℚ) - 1)) / (5 - 1)) *
    multipliersSteel n

/-- Aluminum refinery bauxite consumption (line 578). -/
def aluminumRefineryBauxiteConsumption (n : Nation) (c : City) : ℚ :=
  (3 * (c.aluminum_refinery : ℚ)) * (1 + (0.5 * ((c.aluminum_refinery : ℚ) - 1)) / (5 - 1)) *
    multipliersAluminum n

/-- Munitions factory lead consumption (line 581); the source applies no
project multiplier to this term. -/
def munitionsFactoryLeadConsumption (c : City) : ℚ :=
  (6 * (c.munitions_factory : ℚ)) * (1 + (0.5 * ((c.munitions_factory : ℚ) - 1)) / (5 - 1))

/-- Oil refinery gasoline production (line 585). -/
def oilRefineryGasolineProduction (n : Nation) (c : City) : ℚ :=
  (6 * (c.oil_refinery : ℚ)) * (1 + (0.5 * ((c.oil_refinery : ℚ) - 1)) / (5 - 1)) *
    multipliersOil n

/-- Steel mill steel production (line 588). -/
def steelMillSteelProduction (n : Nation) (c : City) : ℚ :=
  (9 * (c.steel_mill : ℚ)) * (1 + (0.5 * ((c.steel_mill : ℚ) - 1)) / (5 - 1)) *
    multipliersSteel n

/-- Aluminum refinery aluminum production (line 591). -/
def aluminumRefineryAluminumProduction (n : Nation) (c : City) : ℚ :=
  (9 * (c.aluminum_refinery : ℚ)) * (1 + (0.5 * ((c.aluminum_refinery : ℚ) - 1)) / (5 - 1)) *
    multipliersAluminum n

/-- Munitions factory munitions production (line 594). -/
def munitionsFactoryMunitionsProduction (n : Nation) (c : City) : ℚ :=
  (18 * (c.munitions_factory : ℚ)) * (1 + (0.5 * ((c.munitions_factory : ℚ) - 1)) / (5 - 1)) *
    multipliersMunitions n

/-- Raw-material mine production (lines 598-613):
`(count * 3) * (1 + 0.5*(count-1)/4)`. -/
def mineProduction (count : ℕ) : ℚ :=
  ((count : ℚ) * 3) * (1 + (0.5 * ((count : ℚ) - 1)) / (5 - 1))

/-- `commerce_cap` after the project checks of lines 617-621. -/
def commerceCap (n : Nation) : ℚ :=
  if n.international_trade_center then
    (if n.telecommunications_satellite then 125 else 115)
  else 100

/-- `commerce_addition` after lines 623-628. -/
def commerceAddition (n : Nation) : ℚ :=
  (if n.international_trade_center then 1 else 0) +
    (if n.specialized_police_training_program then 4 else 0) +
    (if n.telecommunications_satellite then 2 else 0)

/-- Population density with the `land > 0` guard (line 631). -/
def cityPopulationDensity (c : City) : ℚ :=
  if c.land > 0 then cityBasePopulation c / c.land else 0

/-- City commerce score (lines 634-638). -/
def cityCommerce (n : Nation) (c : City) : ℚ :=
  min ((c.supermarket : ℚ) * 4 + (c.bank : ℚ) * 6 + (c.shopping_mall : ℚ) * 8 +
      (c.stadium : ℚ) * 10 + (c.subway : ℚ) * 8 + commerceAddition n)
    (commerceCap n)

/-- `0.9` resource-improvement upkeep multiplier with green technologies
(line 649). -/
def resourceUpkeepMultiplier (n : Nation) : ℚ := if n.green_technologies then 0.9 else 1

/-- Per-city improvement upkeep (lines 652-676). -/
def cityImprovementUpkeep (n : Nation) (c : City) : ℚ :=
  (c.coal_power : ℚ) * 1200 + (c.oil_power : ℚ) * 1800 + (c.nuclear_power : ℚ) * 10500 +
    (c.wind_power : ℚ) * 500 +
    (c.coal_mine : ℚ) * 400 * resourceUpkeepMultiplier n +
    (c.iron_mine : ℚ) * 1600 * resourceUpkeepMultiplier n +
    (c.lead_mine : ℚ) * 1500 * resourceUpkeepMultiplier n +
    (c.farm : ℚ) * 300 * resourceUpkeepMultiplier n +
    (c.oil_well : ℚ) * 600 * resourceUpkeepMultiplier n +
    (c.bauxite_mine : ℚ) * 1600 * resourceUpkeepMultiplier n +
    (c.uranium_mine : ℚ) * 5000 * resourceUpkeepMultiplier n +
    (c.oil_refinery : ℚ) * 4000 * resourceUpkeepMultiplier n +
    (c.steel_mill : ℚ) * 4000 * resourceUpkeepMultiplier n +
    (c.aluminum_refinery : ℚ) * 2500 * resourceUpkeepMultiplier n +
    (c.munitions_factory : ℚ) * 3500 * resourceUpkeepMultiplier n +
    (c.police_station : ℚ) * 750 + (c.hospital : ℚ) * 1000 +
    (c.recycling_center : ℚ) * 2500 + (c.subway : ℚ) * 3250 +
    (c.supermarket : ℚ) * 600 + (c.bank : ℚ) * 1800 +
    (c.shopping_mall : ℚ) * 5400 + (c.stadium : ℚ) * 12150

/-- Pollution index (lines 679-699). -/
def cityPollutionIndex (n : Nation) (c : City) : ℚ :=
  let farm_greentech_multiplier : ℚ := if n.green_technologies then 0.5 else 1
  let manu_greentech_multiplier : ℚ := if n.green_technologies then 0.75 else 1
  let subway_greentech_addition : ℚ := if n.green_technologies then 25 else 0
  (c.coal_power : ℚ) * 8 + (c.oil_power : ℚ) * 6 + (c.bauxite_mine : ℚ) * 12 +
    (c.coal_mine : ℚ) * 12 + (c.farm : ℚ) * 2 * farm_greentech_multiplier +
    (c.iron_mine : ℚ) * 12 + (c.lead_mine : ℚ) * 12 + (c.oil_well : ℚ) * 12 +
    (c.uranium_mine : ℚ) * 20 +
    (c.oil_refinery : ℚ) * 32 * manu_greentech_multiplier +
    (c.steel_mill : ℚ) * 40 * manu_greentech_multiplier +
    (c.aluminum_refinery : ℚ) * 40 * manu_greentech_multiplier +
    (c.munitions_factory : ℚ) * 32 * manu_greentech_multiplier +
    (c.police_station : ℚ) * 1 + (c.hospital : ℚ) * 4 -
    (c.recycling_center : ℚ) * (if n.recycling_initiative then 75 else 70) -
    (c.subway : ℚ) * (45 + subway_greentech_addition) +
    (c.shopping_mall : ℚ) * 2 + (c.stadium : ℚ) * 5

/-- `police_modifier` (lines 641, 702). -/
def cityPoliceModifier (n : Nation) (c : City) : ℚ :=
  (c.police_station : ℚ) * (if n.specialized_police_training_program then 3.5 else 2.5)

/-- `hospital_modifier` (lines 642, 704). -/
def cityHospitalModifier (n : Nation) (c : City) : ℚ :=
  (c.hospital : ℚ) * (if n.clinical_research_center then 3.5 else 2.5)

/-- Crime rate (line 707). -/
def cityCrimeRate (n : Nation) (c : City) : ℚ :=
  ((103 - cityCommerce n c) * (103 - cityCommerce n c) + c.infrastructure * 100) / 111111 -
    cityPoliceModifier n c

/-- Disease rate (line 708). -/
def cityDiseaseRate (n : Nation) (c : City) : ℚ :=
  (cityPopulationDensity c * cityPopulationDensity c * 0.01 - 25) / 100 +
    cityBasePopulation c / 100000 + cityPollutionIndex n c * 0.05 -
    cityHospitalModifier n c

/-- Final city population (lines 711-712): the two clamped penalties are
subtracted, then the result is scaled by `1 + ln_age/15`. -/
def cityPopulation (n : Nation) (c : City) : ℚ :=
  (cityBasePopulation c -
      max (cityDiseaseRate n c * 100 * c.infrastructure / 100) 0 -
      max (cityCrimeRate n c / 10 * (100 * c.infrastructure) - 25) 0) *
    (1 + c.lnAge / 15)

/-- Per-city gross income contribution (line 715). -/
def cityGrossIncome (n : Nation) (c : City) : ℚ :=
  (cityCommerce n c / 50 * 0.725 + 0.725) * cityPopulation n c

/-- Net per-city contribution to `production[r]` assembled from all the
`production[...] += / -=` statements of the city loop. -/
def cityProduction (n : Nation) (g : GameInfo) (c : City) : Resource → ℚ
  | .food => -cityFoodDemand c + cityFoodProduction n g c
  | .uranium => -nuclearUraniumConsumption c + mineProduction c.uranium_mine * multipliersUranium n
  | .oil => -oilPlantOilConsumption c - oilRefineryOilConsumption n c + mineProduction c.oil_well
  | .iron => -steelMillIronConsumption n c + mineProduction c.iron_mine
  | .coal => -coalPlantCoalConsumption c - steelMillCoalConsumption n c + mineProduction c.coal_mine
  | .bauxite => -aluminumRefineryBauxiteConsumption n c + mineProduction c.bauxite_mine
  | .lead => -munitionsFactoryLeadConsumption c + mineProduction c.lead_mine
  | .aluminum => aluminumRefineryAluminumProduction n c
  | .gasoline => oilRefineryGasolineProduction n c
  | .munitions => munitionsFactoryMunitionsProduction n c
  | .steel => steelMillSteelProduction n c

/-- `soldier_formula`: food eaten by soldiers (lines 719-723, 730). -/
def soldierFoodConsumption (n : Nation) : ℚ :=
  if n.offensive_wars_count + n.defensive_wars_count = 0 then (n.soldiers : ℚ) / 750
  else (n.soldiers : ℚ) / 500

/-- `income["military_upkeep"]` after lines 717-727: peacetime or wartime
unit coefficients plus the war-state-independent spy upkeep. -/
def militaryUpkeep (n : Nation) : ℚ :=
  (if n.offensive_wars_count + n.defensive_wars_count = 0 then
      (n.soldiers : ℚ) * 1.25 + (n.tanks : ℚ) * 50 + (n.aircraft : ℚ) * 500 +
        (n.ships : ℚ) * 3375 + (n.missiles : ℚ) * 21000 + (n.nukes : ℚ) * 35000
    else
      (n.soldiers : ℚ) * 1.88 + (n.tanks : ℚ) * 75 + (n.aircraft : ℚ) * 750 +
        (n.ships : ℚ) * 5062.50 + (n.missiles : ℚ) * 31500 + (n.nukes : ℚ) * 52500) +
    (n.spies : ℚ) * 2400

/-- Nation-level gross income before the domestic-policy adjustment:
the sum of the per-city contributions (line 715 accumulated). -/
def nationCityGrossSum (n : Nation) : ℚ := (n.cities.map (cityGrossIncome n)).sum

/-- Nation-level improvement upkeep: per-city upkeep accumulated. -/
def nationImprovementUpkeep (n : Nation) : ℚ :=
  (n.cities.map (cityImprovementUpkeep n)).sum

/-- Net national production of a resource: the city loop's contributions,
with the soldiers' food subtracted from food (line 730). -/
def nationProduction (n : Nation) (g : GameInfo) (r : Resource) : ℚ :=
  (n.cities.map (fun c => cityProduction n g c r)).sum -
    (if r = .food then soldierFoodConsumption n else 0)

/-- `domestic_policy_increase` (lines 733-737): the `+0.25` sits inside the
government-support-agency branch. -/
def domesticPolicyIncrease (n : Nation) : ℚ :=
  1 + (if n.government_support_agency then
         0.5 + (if n.bureau_of_domestic_affairs then 0.25 else 0)
       else 0)

/-- The domestic-policy adjustment of lines 739-742 applied to the pair
(gross income, military upkeep). -/
def applyDomesticPolicy (n : Nation) (gross upkeep : ℚ) : ℚ × ℚ :=
  if n.domestic_policy = "OPEN_MARKETS" then
    (gross * (1 + 0.01 * domesticPolicyIncrease n), upkeep)
  else if n.domestic_policy = "IMPERIALISM" then
    (gross, upkeep * (1 - 0.05 * domesticPolicyIncrease n))
  else (gross, upkeep)

/-- Color bonus (lines 745-750): table lookup when the nation's color
matches the alliance's color, beige fallback, else 0; then times 12.
The table is an association list mirroring `color_bonuses.get(key, 0)`. -/
def colorBonus (bonuses : List (String × ℚ)) (allianceColor : Option String)
    (color : String) : ℚ :=
  (if allianceColor = some color then (bonuses.lookup color).getD 0
   else if color = "beige" then (bonuses.lookup "beige").getD 0
   else 0) * 12

/-- The eight-field `income` dictionary of the returned report. -/
structure Income where
  gross_income : ℚ
  color_bonus : ℚ
  gross_total : ℚ
  military_upkeep : ℚ
  improvement_upkeep : ℚ
  gross_upkeep : ℚ
  net_income : ℚ
  monetary_net_income : ℚ

/-- The part of `calculate_nation_revenue`'s return value that the claims
talk about. -/
structure NationReport where
  num_cities : ℕ
  production : Resource → ℚ
  total_monetary_value : ℚ
  income : Income

/-- The successful branch of `calculate_nation_revenue` (lines 427-789):
city loop, military upkeep, domestic policy, color bonus, monetary
conversion, and the final income fields of lines 766-788. -/
def calcNationReport (n : Nation) (g : GameInfo) (bonuses : List (String × ℚ))
    (allianceColor : Option String) (prices : Resource → ℚ) : NationReport :=
  let adjusted := applyDomesticPolicy n (nationCityGrossSum n) (militaryUpkeep n)
  let cb := colorBonus bonuses allianceColor n.color
  let tmv := (Resource.all.map (fun r => nationProduction n g r * prices r)).sum
  let gross_total := cb + adjusted.1
  let gross_upkeep := nationImprovementUpkeep n + adjusted.2
  { num_cities := n.num_cities
    production := nationProduction n g
    total_monetary_value := tmv
    income :=
      { gross_income := adjusted.1
        color_bonus := cb
        gross_total := gross_total
        military_upkeep := adjusted.2
        improvement_upkeep := nationImprovementUpkeep n
        gross_upkeep := gross_upkeep
        net_income := gross_total - gross_upkeep
        monetary_net_income := gross_total - gross_upkeep + tmv } }

/-- Failure taxonomy of `calculate_nation_revenue`: "Nation non trouvée"
and "Impossible de récupérer les informations du jeu". -/
inductive RevenueError where
  | notFound
  | upstreamUnavailable
deriving DecidableEq, Repr

/-- `DEFAULT_PRICES` (`bank.py` lines 87-99). -/
def DEFAULT_PRICES : Resource → ℚ
  | .food => 50
  | .coal => 100
  | .oil => 150
  | .uranium => 400
  | .lead => 100
  | .iron => 100
  | .bauxite => 100
  | .gasoline => 175
  | .munitions => 250
  | .steel => 200
  | .aluminum => 150

/-- Entry point `calculate_nation_revenue` (lines 380-402 and on): a missing
nation aborts with the not-found error, a missing game context aborts with
the upstream error; a failed color fetch yields the empty table
(`fetch_color_data` returns `{}` on failure) and a failed market-price
fetch yields `DEFAULT_PRICES` (`get_pnw_market_prices` never fails). -/
def calculateNationRevenue (nationFetch : Option Nation) (gameFetch : Option GameInfo)
    (colorFetch : Option (List (String × ℚ))) (priceFetch : Option (Resource → ℚ))
    (allianceColor : Option String) : Except RevenueError NationReport :=
  match nationFetch with
  | none => .error .notFound
  | some n =>
    match gameFetch with
    | none => .error .upstreamUnavailable
    | some g =>
      .ok (calcNationReport n g (colorFetch.getD []) allianceColor
        (priceFetch.getD DEFAULT_PRICES))

/-- The aggregate state of `calculate_alliance_revenue` (lines 817-894):
summed production, summed income fields, summed monetary value, summed
city count, and the processed/failed counters. -/
structure AllianceAcc where
  production : Resource → ℚ
  income : Income
  total_monetary_value : ℚ
  total_cities : ℕ
  processed_nations : ℕ
  failed_nations : ℕ

/-- The empty accumulator (lines 818-840). -/
def allianceInit : AllianceAcc :=
  { production := fun _ => 0
    income :=
      { gross_income := 0, color_bonus := 0, gross_total := 0, military_upkeep := 0,
        improvement_upkeep := 0, gross_upkeep := 0, net_income := 0,
        monetary_net_income := 0 }
    total_monetary_value := 0
    total_cities := 0
    processed_nations := 0
    failed_nations := 0 }

/-- One iteration of the member loop (lines 847-894): a failed member only
increments `failed_nations`; a successful member is added into every
aggregated field and increments `processed_nations`. -/
def allianceStep (acc : AllianceAcc) (memberResult : Option NationReport) : AllianceAcc :=
  match memberResult with
  | none => { acc with failed_nations := acc.failed_nations + 1 }
  | some r =>
    { production := fun res => acc.production res + r.production res
      income :=
        { gross_income := acc.income.gross_income + r.income.gross_income
          color_bonus := acc.income.color_bonus + r.income.color_bonus
          gross_total := acc.income.gross_total + r.income.gross_total
          military_upkeep := acc.income.military_upkeep + r.income.military_upkeep
          improvement_upkeep := acc.income.improvement_upkeep + r.income.improvement_upkeep
          gross_upkeep := acc.income.gross_upkeep + r.income.gross_upkeep
          net_income := acc.income.net_income + r.income.net_income
          monetary_net_income := acc.income.monetary_net_income + r.income.monetary_net_income }
      total_monetary_value := acc.total_monetary_value + r.total_monetary_value
      total_cities := acc.total_cities + r.num_cities
      processed_nations := acc.processed_nations + 1
      failed_nations := acc.failed_nations }

/-- The member loop of `calculate_alliance_revenue` over the non-applicant
members, each member's `calculate_nation_revenue` outcome modelled as
`Option NationReport` (`none` = error or exception). -/
def allianceAggregate (members : List (Option NationReport)) : AllianceAcc :=
  members.foldl allianceStep allianceInit

/-! ### Spec-side definitions (for refinement comparisons only) -/

/-- Spec step 4, written from the spec's words for comparison with
`cityFoodProduction`: base = `round(farms * (1 + 0.5*(farms-1)/19) * rate, 2)`
with rate = land/400 under mass irrigation else land/500, halved for
Antarctica; the rounded base is then multiplied by the seasonal modifier
(0.8/1.0/1.2 by hemisphere, Southern = {sa, as, af}, skipped for
Antarctica) and by `1 + penalty` with penalty =
`-(continent_radiation + global_radiation)/1000 * (0.85 under a fallout
shelter)`; the product is clamped at 0 and multiplied by 12. -/
def specStep4FoodProduction (n : Nation) (g : GameInfo) (c : City) : ℚ :=
  let rate : ℚ :=
    (if n.mass_irrigation then c.land / 400 else c.land / 500) *
      (if n.continent = "an" then 0.5 else 1)
  let base : ℚ := round2 ((c.farm : ℚ) * (1 + 0.5 * ((c.farm : ℚ) - 1) / 19) * rate)
  let seasonal : ℚ :=
    if n.continent = "an" then 1
    else if n.continent = "sa" ∨ n.continent = "as" ∨ n.continent = "af" then
      (if g.month = 12 ∨ g.month = 1 ∨ g.month = 2 then 1.2
       else if g.month = 6 ∨ g.month = 7 ∨ g.month = 8 then 0.8 else 1)
    else
      (if g.month = 12 ∨ g.month = 1 ∨ g.month = 2 then 0.8
       else if g.month = 6 ∨ g.month = 7 ∨ g.month = 8 then 1.2 else 1)
  let penalty : ℚ :=
    -(radiationOf g n.continent + g.rad.glob) / 1000 *
      (if n.fallout_shelter then 0.85 else 1)
  12 * max (base * seasonal * (1 + penalty)) 0

/-- The spec's shared diminishing-returns curve
`count * (1 + 0.5*(count-1)/4)`, written from the spec's words. -/
def specDiminishingReturns (count : ℚ) : ℚ := count * (1 + 0.5 * (count - 1) / 4)

/-! ### Concrete fixtures -/

/-- A city with every numeric field 0. -/
def baseCity : City :=
  { infrastructure := 0, land := 0, lnAge := 0,
    oil_refinery := 0, steel_mill := 0, aluminum_refinery := 0, munitions_factory := 0,
    uranium_mine := 0, oil_well := 0, iron_mine := 0, coal_mine := 0,
    bauxite_mine := 0, lead_mine := 0, farm := 0,
    subway := 0, stadium := 0, shopping_mall := 0, bank := 0, supermarket := 0,
    police_station := 0, hospital := 0, recycling_center := 0,
    nuclear_power := 0, coal_power := 0, oil_power := 0, wind_power := 0 }

/-- A nation with no cities, no military, no wars and no projects. -/
def baseNation : Nation :=
  { continent := "eu", color := "gray", domestic_policy := "MANIFEST_DESTINY",
    num_cities := 0,
    soldiers := 0, tanks := 0, aircraft := 0, ships := 0, spies := 0,
    missiles := 0, nukes := 0,
    offensive_wars_count := 0, defensive_wars_count := 0,
    bauxite_works := false, emergency_gasoline_reserve := false, iron_works := false,
    uranium_enrichment_program := false, specialized_police_training_program := false,
    international_trade_center := false, telecommunications_satellite := false,
    clinical_research_center := false, green_technologies := false,
    arms_stockpile := false, government_support_agency := false,
    mass_irrigation := false, fallout_shelter := false,
    bureau_of_domestic_affairs := false, recycling_initiative := false,
    cities := [] }

/-- A radiation table that is zero everywhere. -/
def zeroRadiation : Radiation :=
  { glob := 0, northAmerica := 0, southAmerica := 0, asia := 0,
    antarctica := 0, europe := 0, africa := 0, australia := 0 }

/-- January game date with zero radiation. -/
def januaryGame : GameInfo := { month := 1, rad := zeroRadiation }

/-- The C1 round-trip scenario city: infrastructure 1000, land 2000,
10 farms. -/
def c1City : City := { baseCity with infrastructure := 1000, land := 2000, farm := 10 }

/-- A nation with the arms-stockpile project active. -/
def c2Nation : Nation := { baseNation with arms_stockpile := true }

/-- A city with a single munitions factory. -/
def c2City : City := { baseCity with munitions_factory := 1 }

/-- A dense city: infrastructure 100 on 1 unit of land, no improvements. -/
def c3City : City := { baseCity with infrastructure := 100, land := 1 }

/-- A city with fractional infrastructure 1000.5 and one nuclear plant. -/
def c4City : City := { baseCity with infrastructure := 2001 / 2, nuclear_power := 1 }

/-- A nation whose only military asset is one spy, at peace. -/
def spyPeaceNation : Nation := { baseNation with spies := 1 }

/-- The same spy-only nation with one active offensive war. -/
def spyWarNation : Nation := { baseNation with spies := 1, offensive_wars_count := 1 }

/-- A nation with a single soldier, at peace. -/
def soldierPeaceNation : Nation := { baseNation with soldiers := 1 }

/-- The same single-soldier nation with two active defensive wars. -/
def soldierWarNation : Nation :=
  { baseNation with soldiers := 1, defensive_wars_count := 2 }

/-- An OPEN_MARKETS nation with both income projects active. -/
def c7Nation : Nation :=
  { baseNation with
    domestic_policy := "OPEN_MARKETS"
    government_support_agency := true
    bureau_of_domestic_affairs := true }

/-- An OPEN_MARKETS nation with neither income project. -/
def c10Nation : Nation := { baseNation with domestic_policy := "OPEN_MARKETS" }

/-- A sample successful member report for the alliance aggregation. -/
def sampleReport : NationReport :=
  calcNationReport { baseNation with num_cities := 1, cities := [c1City] }
    januaryGame [] none DEFAULT_PRICES

end SunTzu

namespace SunTzu

/-- C1: for every city the daily food production added by the engine equals
the composed spec-step-4 formula — 2-decimal rounding of
`farms * (1 + 0.5*(farms-1)/19) * rate` BEFORE the seasonal modifier and
the radiation penalty, clamp at 0, times 12 — and on the single-city
scenario (infrastructure 1000, land 2000, 10 farms, no projects, Northern
non-Antarctic continent, January game date) it equals the hand-computed
474.912, within the claimed 1e-6 absolute tolerance. -/
theorem cityFoodProduction_matches_spec :
    (∀ (n : Nation) (g : GameInfo) (c : City),
        cityFoodProduction n g c = specStep4FoodProduction n g c) ∧
    cityFoodProduction baseNation januaryGame c1City = 474.912 ∧
    |cityFoodProduction baseNation januaryGame c1City -
        specStep4FoodProduction baseNation januaryGame c1City| ≤ 1 / 1000000 := by
  refine ⟨fun n g c => ?_, ?_, ?_⟩
  · simp only [cityFoodProduction, specStep4FoodProduction]
    split_ifs <;> ring_nf
  · norm_num +decide [cityFoodProduction, round2, round_eq, c1City, baseCity,
      baseNation, januaryGame, zeroRadiation, radiationOf, max_def]
  · norm_num +decide [cityFoodProduction, specStep4FoodProduction, round2, round_eq, c1City,
      baseCity, baseNation, januaryGame, zeroRadiation, radiationOf, max_def]

/-- C2 counterexample: with the arms-stockpile project active and one
munitions factory, the engine's lead-consumption term is 6 — it is not
multiplied by the 1.20 munitions multiplier as the claim requires. -/
theorem munitionsLead_unmultiplied_counterexample :
    multipliersMunitions c2Nation = 1.20 ∧
    munitionsFactoryLeadConsumption c2City = 6 ∧
    munitionsFactoryLeadConsumption c2City ≠
      6 * specDiminishingReturns (c2City.munitions_factory : ℚ) *
        multipliersMunitions c2Nation := by
  refine ⟨?_, ?_, ?_⟩ <;>
    norm_num [multipliersMunitions, munitionsFactoryLeadConsumption, specDiminishingReturns,
      c2Nation, c2City, baseNation, baseCity]

/-- C2 amended: every manufacturing consumption/production term is the
spec's diminishing-returns curve scaled by the fixed per-unit constant and
by the improvement's project multiplier — except the munitions factory's
lead consumption, which carries no multiplier. -/
theorem manufacturing_terms_match_curve (n : Nation) (c : City) :
    oilRefineryOilConsumption n c =
      3 * specDiminishingReturns (c.oil_refinery : ℚ) * multipliersOil n ∧
    oilRefineryGasolineProduction n c =
      6 * specDiminishingReturns (c.oil_refinery : ℚ) * multipliersOil n ∧
    steelMillIronConsumption n c =
      3 * specDiminishingReturns (c.steel_mill : ℚ) * multipliersSteel n ∧
    steelMillCoalConsumption n c =
      3 * specDiminishingReturns (c.steel_mill : ℚ) * multipliersSteel n ∧
    steelMillSteelProduction n c =
      9 * specDiminishingReturns (c.steel_mill : ℚ) * multipliersSteel n ∧
    aluminumRefineryBauxiteConsumption n c =
      3 * specDiminishingReturns (c.aluminum_refinery : ℚ) * multipliersAluminum n ∧
    aluminumRefineryAluminumProduction n c =
      9 * specDiminishingReturns (c.aluminum_refinery : ℚ) * multipliersAluminum n ∧
    munitionsFactoryLeadConsumption c =
      6 * specDiminishingReturns (c.munitions_factory : ℚ) ∧
    munitionsFactoryMunitionsProduction n c =
      18 * specDiminishingReturns (c.munitions_factory : ℚ) * multipliersMunitions n := by
  unfold oilRefineryOilConsumption oilRefineryGasolineProduction steelMillIronConsumption
    steelMillCoalConsumption steelMillSteelProduction aluminumRefineryBauxiteConsumption
    aluminumRefineryAluminumProduction munitionsFactoryLeadConsumption
    munitionsFactoryMunitionsProduction specDiminishingReturns
  refine ⟨by ring, by ring, by ring, by ring, by ring, by ring, by ring, by ring, by ring⟩

/-- C3 counterexample: a city with non-negative inputs (infrastructure 100
on land 1, commerce 0, minimum age) whose final population is negative —
the two clamps bound the penalties below, not the resulting population. -/
theorem cityPopulation_negative_counterexample :
    0 ≤ c3City.infrastructure ∧ 0 ≤ c3City.lnAge ∧
    0 ≤ cityCommerce baseNation c3City ∧
    cityPopulation baseNation c3City < 0 := by
  refine ⟨by norm_num [c3City, baseCity], by norm_num [c3City, baseCity], ?_, ?_⟩ <;>
    norm_num [cityPopulation, cityBasePopulation, cityDiseaseRate, cityCrimeRate,
      cityPopulationDensity, cityPollutionIndex, cityPoliceModifier, cityHospitalModifier,
      cityCommerce, commerceAddition, commerceCap, min_def, max_def, c3City, baseCity,
      baseNation]

/-- C3 amended: the two `max(..., 0)` clamps make both penalties
non-negative, so the final population never exceeds the age-scaled base
population (but it can go negative, as the counterexample shows). -/
theorem cityPopulation_le_scaled_base (n : Nation) (c : City) (hln : 0 ≤ c.lnAge) :
    cityPopulation n c ≤ cityBasePopulation c * (1 + c.lnAge / 15) := by
  unfold cityPopulation
  have h1 : (0 : ℚ) ≤ max (cityDiseaseRate n c * 100 * c.infrastructure / 100) 0 :=
    le_max_right _ _
  have h2 : (0 : ℚ) ≤ max (cityCrimeRate n c / 10 * (100 * c.infrastructure) - 25) 0 :=
    le_max_right _ _
  have hfac : (0 : ℚ) ≤ 1 + c.lnAge / 15 := by linarith
  have hin : cityBasePopulation c -
      max (cityDiseaseRate n c * 100 * c.infrastructure / 100) 0 -
      max (cityCrimeRate n c / 10 * (100 * c.infrastructure) - 25) 0 ≤
      cityBasePopulation c := by linarith
  exact mul_le_mul_of_nonneg_right hin hfac

/-- Witness for the amended C3 theorem at the concrete dense city. -/
theorem cityPopulation_le_scaled_base_witness :
    0 ≤ c3City.lnAge ∧
    cityPopulation baseNation c3City ≤ cityBasePopulation c3City * (1 + c3City.lnAge / 15) :=
  ⟨by norm_num [c3City, baseCity],
    cityPopulation_le_scaled_base baseNation c3City (by norm_num [c3City, baseCity])⟩

/-- C4: at fractional infrastructure 1000.5 with one nuclear plant the
engine's `(infra + 999) // 1000` evaluates to 1, so 2.4 uranium is
consumed, while the claimed (and source-commented) `Math.ceil` formula
`min(ceil(infra/1000), plants*2) * 2.4` gives 4.8. -/
theorem nuclearUranium_floor_ne_ceil :
    nuclearUraniumConsumption c4City = 2.4 ∧
    ((min ⌈c4City.infrastructure / 1000⌉ ((c4City.nuclear_power : ℤ) * 2) : ℤ) : ℚ) * 2.4 =
      4.8 ∧
    nuclearUraniumConsumption c4City ≠
      ((min ⌈c4City.infrastructure / 1000⌉ ((c4City.nuclear_power : ℤ) * 2) : ℤ) : ℚ) * 2.4 := by
  have hceil : ⌈c4City.infrastructure / 1000⌉ = 2 := by
    rw [show c4City.infrastructure = 2001 / 2 from rfl, Int.ceil_eq_iff]; norm_num
  refine ⟨?_, ?_, ?_⟩
  · norm_num [nuclearUraniumConsumption, c4City, baseCity, min_def]
  · rw [hceil]; norm_num [c4City, baseCity, min_def]
  · rw [hceil]; norm_num [nuclearUraniumConsumption, c4City, baseCity, min_def]

/-- Any accumulator field that grows by `h r` on a successful member and is
untouched by a failed member has a closed form after the member loop. -/
theorem allianceFold_field {β : Type} [AddCommMonoid β] (f : AllianceAcc → β)
    (h : NationReport → β)
    (hsome : ∀ acc r, f (allianceStep acc (some r)) = f acc + h r)
    (hnone : ∀ acc, f (allianceStep acc none) = f acc) :
    ∀ (members : List (Option NationReport)) (acc : AllianceAcc),
      f (members.foldl allianceStep acc) = f acc + ((members.filterMap id).map h).sum := by
  intro members
  induction members with
  | nil => intro acc; simp
  | cons m ms ih =>
    intro acc
    cases m with
    | none => simp [List.foldl_cons, ih, hnone]
    | some r => simp [List.foldl_cons, ih, hsome, add_assoc]

/-- Specialization of `allianceFold_field` to the full aggregation starting
from the zero accumulator. -/
theorem allianceAggregate_field {β : Type} [AddCommMonoid β] (f : AllianceAcc → β)
    (h : NationReport → β) (hinit : f allianceInit = 0)
    (hsome : ∀ acc r, f (allianceStep acc (some r)) = f acc + h r)
    (hnone : ∀ acc, f (allianceStep acc none) = f acc)
    (members : List (Option NationReport)) :
    f (allianceAggregate members) = ((members.filterMap id).map h).sum := by
  have hfold := allianceFold_field f h hsome hnone members allianceInit
  rw [allianceAggregate, hfold, hinit, zero_add]

/-- The processed/failed counters after the member loop. -/
theorem allianceFold_counters :
    ∀ (members : List (Option NationReport)) (acc : AllianceAcc),
      (members.foldl allianceStep acc).processed_nations =
          acc.processed_nations + (members.countP fun m => m.isSome) ∧
      (members.foldl allianceStep acc).failed_nations =
          acc.failed_nations + (members.countP fun m => m.isNone) := by
  intro members
  induction members with
  | nil => intro acc; simp
  | cons m ms ih =>
    intro acc
    obtain ⟨ih1, ih2⟩ := ih (allianceStep acc m)
    cases m with
    | none =>
      refine ⟨?_, ?_⟩ <;> (simp_all [allianceStep, List.countP_cons]; try omega)
    | some r =>
      refine ⟨?_, ?_⟩ <;> (simp_all [allianceStep, List.countP_cons]; try omega)

/-- Each member is counted exactly once, as a success or as a failure. -/
theorem countP_isSome_isNone_length :
    ∀ members : List (Option NationReport),
      (members.countP fun m => m.isSome) + (members.countP fun m => m.isNone) =
        members.length := by
  intro members
  induction members with
  | nil => rfl
  | cons m ms ih => cases m <;> (simp [List.countP_cons]; omega)

/-- C5: over any member-loop run, processed plus failed members account for
every member; failures only increment the failed counter and are skipped;
each aggregated numeric field (production per resource, the eight income
fields, total monetary value, total cities) is the sum of that field over
exactly the successfully processed members; when every member succeeds,
no failures are recorded and the alliance net income is the sum of the
member net incomes. -/
theorem alliance_aggregation_sums (members : List (Option NationReport)) :
    (allianceAggregate members).processed_nations +
        (allianceAggregate members).failed_nations = members.length ∧
    (allianceAggregate members).processed_nations =
        (members.countP fun m => m.isSome) ∧
    (allianceAggregate members).failed_nations =
        (members.countP fun m => m.isNone) ∧
    (∀ r : Resource, (allianceAggregate members).production r =
        ((members.filterMap id).map fun rep => rep.production r).sum) ∧
    (allianceAggregate members).income.gross_income =
        ((members.filterMap id).map fun rep => rep.income.gross_income).sum ∧
    (allianceAggregate members).income.color_bonus =
        ((members.filterMap id).map fun rep => rep.income.color_bonus).sum ∧
    (allianceAggregate members).income.gross_total =
        ((members.filterMap id).map fun rep => rep.income.gross_total).sum ∧
    (allianceAggregate members).income.military_upkeep =
        ((members.filterMap id).map fun rep => rep.income.military_upkeep).sum ∧
    (allianceAggregate members).income.improvement_upkeep =
        ((members.filterMap id).map fun rep => rep.income.improvement_upkeep).sum ∧
    (allianceAggregate members).income.gross_upkeep =
        ((members.filterMap id).map fun rep => rep.income.gross_upkeep).sum ∧
    (allianceAggregate members).income.net_income =
        ((members.filterMap id).map fun rep => rep.income.net_income).sum ∧
    (allianceAggregate members).income.monetary_net_income =
        ((members.filterMap id).map fun rep => rep.income.monetary_net_income).sum ∧
    (allianceAggregate members).total_monetary_value =
        ((members.filterMap id).map fun rep => rep.total_monetary_value).sum ∧
    (allianceAggregate members).total_cities =
        ((members.filterMap id).map fun rep => rep.num_cities).sum ∧
    ((∀ m ∈ members, m ≠ none) →
      (allianceAggregate members).failed_nations = 0 ∧
      (allianceAggregate members).income.net_income =
        ((members.filterMap id).map fun rep => rep.income.net_income).sum) := by
  obtain ⟨hproc, hfail⟩ := allianceFold_counters members allianceInit
  have hproc' : (allianceAggregate members).processed_nations =
      (members.countP fun m => m.isSome) := by
    rw [allianceAggregate, hproc]; simp [allianceInit]
  have hfail' : (allianceAggregate members).failed_nations =
      (members.countP fun m => m.isNone) := by
    rw [allianceAggregate, hfail]; simp [allianceInit]
  have hnet : (allianceAggregate members).income.net_income =
      ((members.filterMap id).map fun rep => rep.income.net_income).sum :=
    allianceAggregate_field (fun a => a.income.net_income)
      (fun rep => rep.income.net_income) rfl (fun _ _ => rfl) (fun _ => rfl) members
  refine ⟨?_, hproc', hfail',
    fun r => allianceAggregate_field (fun a => a.production r)
      (fun rep => rep.production r) rfl (fun _ _ => rfl) (fun _ => rfl) members,
    allianceAggregate_field (fun a => a.income.gross_income)
      (fun rep => rep.income.gross_income) rfl (fun _ _ => rfl) (fun _ => rfl) members,
    allianceAggregate_field (fun a => a.income.color_bonus)
      (fun rep => rep.income.color_bonus) rfl (fun _ _ => rfl) (fun _ => rfl) members,
    allianceAggregate_field (fun a => a.income.gross_total)
      (fun rep => rep.income.gross_total) rfl (fun _ _ => rfl) (fun _ => rfl) members,
    allianceAggregate_field (fun a => a.income.military_upkeep)
      (fun rep => rep.income.military_upkeep) rfl (fun _ _ => rfl) (fun _ => rfl) members,
    allianceAggregate_field (fun a => a.income.improvement_upkeep)
      (fun rep => rep.income.improvement_upkeep) rfl (fun _ _ => rfl) (fun _ => rfl) members,
    allianceAggregate_field (fun a => a.income.gross_upkeep)
      (fun rep => rep.income.gross_upkeep) rfl (fun _ _ => rfl) (fun _ => rfl) members,
    hnet,
    allianceAggregate_field (fun a => a.income.monetary_net_income)
      (fun rep => rep.income.monetary_net_income) rfl (fun _ _ => rfl) (fun _ => rfl) members,
    allianceAggregate_field (fun a => a.total_monetary_value)
      (fun rep => rep.total_monetary_value) rfl (fun _ _ => rfl) (fun _ => rfl) members,
    allianceAggregate_field (fun a => a.total_cities)
      (fun rep => rep.num_cities) rfl (fun _ _ => rfl) (fun _ => rfl) members,
    fun hall => ⟨?_, hnet⟩⟩
  · rw [hproc', hfail', countP_isSome_isNone_length]
  · rw [hfail']
    rw [List.countP_eq_zero]
    intro m hm
    simp [Option.isNone_iff_eq_none, hall m hm]

/-- Witness for C5: a two-member run with one failure accounts for both
members, and an all-success run records no failures. -/
theorem alliance_aggregation_sums_witness :
    (allianceAggregate [some sampleReport, none]).processed_nations +
        (allianceAggregate [some sampleReport, none]).failed_nations = 2 ∧
    (allianceAggregate [some sampleReport]).failed_nations = 0 := by
  obtain ⟨h1, -⟩ := alliance_aggregation_sums [some sampleReport, none]
  obtain ⟨-, -, -, -, -, -, -, -, -, -, -, -, -, -, h2⟩ :=
    alliance_aggregation_sums [some sampleReport]
  exact ⟨h1, (h2 (by simp)).1⟩

/-- C6: the entry point fails exactly when the nation fetch or the
game-context fetch fails — with the not-found error for the former and the
upstream error for the latter — independently of the color-table and
market-price fetches, which degrade to the empty table and to
`DEFAULT_PRICES` respectively. -/
theorem calculateNationRevenue_failure_modes (nf : Option Nation) (gf : Option GameInfo)
    (cf : Option (List (String × ℚ))) (pf : Option (Resource → ℚ)) (ac : Option String) :
    ((∃ rep, calculateNationRevenue nf gf cf pf ac = .ok rep) ↔
        nf.isSome ∧ gf.isSome) ∧
    (calculateNationRevenue nf gf cf pf ac = .error .notFound ↔ nf = none) ∧
    (calculateNationRevenue nf gf cf pf ac = .error .upstreamUnavailable ↔
        nf.isSome ∧ gf = none) ∧
    calculateNationRevenue nf gf none pf ac =
        calculateNationRevenue nf gf (some []) pf ac ∧
    calculateNationRevenue nf gf cf none ac =
        calculateNationRevenue nf gf cf (some DEFAULT_PRICES) ac := by
  cases nf <;> cases gf <;> simp [calculateNationRevenue]

/-- C7: the domestic-policy increase is 1, +0.5 with the government support
agency, +0.25 more only when the bureau of domestic affairs is also active;
OPEN_MARKETS scales gross income by `1 + 0.01*increase` (1.0175 with both
projects), IMPERIALISM scales military upkeep by `1 - 0.05*increase`, any
other policy changes nothing. -/
theorem domestic_policy_adjustment :
    (∀ n : Nation, domesticPolicyIncrease n =
        1 + (if n.government_support_agency then (0.5 : ℚ) else 0) +
          (if n.government_support_agency ∧ n.bureau_of_domestic_affairs then
            (0.25 : ℚ) else 0)) ∧
    (∀ (n : Nation) (g u : ℚ), n.domestic_policy = "OPEN_MARKETS" →
        applyDomesticPolicy n g u = (g * (1 + 0.01 * domesticPolicyIncrease n), u)) ∧
    (∀ n : Nation, n.government_support_agency → n.bureau_of_domestic_affairs →
        1 + 0.01 * domesticPolicyIncrease n = 1.0175) ∧
    (∀ (n : Nation) (g u : ℚ), n.domestic_policy = "IMPERIALISM" →
        applyDomesticPolicy n g u = (g, u * (1 - 0.05 * domesticPolicyIncrease n))) ∧
    (∀ (n : Nation) (g u : ℚ), n.domestic_policy ≠ "OPEN_MARKETS" →
        n.domestic_policy ≠ "IMPERIALISM" → applyDomesticPolicy n g u = (g, u)) := by
  refine ⟨?_, ?_, ?_, ?_, ?_⟩
  · intro n
    unfold domesticPolicyIncrease
    rcases hg : n.government_support_agency <;>
      rcases hb : n.bureau_of_domestic_affairs <;> norm_num [hg, hb]
  · intro n g u h
    unfold applyDomesticPolicy
    rw [if_pos h]
  · intro n hg hb
    unfold domesticPolicyIncrease
    rw [if_pos hg, if_pos hb]
    norm_num
  · intro n g u h
    unfold applyDomesticPolicy
    rw [if_neg (by simp [h]), if_pos h]
  · intro n g u h1 h2
    unfold applyDomesticPolicy
    rw [if_neg h1, if_neg h2]

/-- Witness for C7: with both projects and OPEN_MARKETS the gross income is
multiplied by exactly 1.0175. -/
theorem domestic_policy_adjustment_witness :
    c7Nation.domestic_policy = "OPEN_MARKETS" ∧
    applyDomesticPolicy c7Nation 100 50 = (101.75, 50) := by
  have h := domestic_policy_adjustment
  refine ⟨rfl, ?_⟩
  rw [h.2.1 c7Nation 100 50 rfl]
  have h175 : 1 + 0.01 * domesticPolicyIncrease c7Nation = 1.0175 :=
    h.2.2.1 c7Nation rfl rfl
  rw [h175]
  norm_num

/-- C8: the color bonus is 12 times the table entry for the nation's color
when it matches the alliance color, 12 times the beige entry when the
nation's color is beige, and 0 otherwise (missing entries are 0, the empty
table always gives 0). -/
theorem color_bonus_rule :
    (∀ (bonuses : List (String × ℚ)) (color : String),
        colorBonus bonuses (some color) color = 12 * ((bonuses.lookup color).getD 0)) ∧
    (∀ (bonuses : List (String × ℚ)) (ac : Option String),
        colorBonus bonuses ac "beige" = 12 * ((bonuses.lookup "beige").getD 0)) ∧
    (∀ (bonuses : List (String × ℚ)) (ac : Option String) (color : String),
        ac ≠ some color → color ≠ "beige" → colorBonus bonuses ac color = 0) ∧
    (∀ (ac : Option String) (color : String), colorBonus [] ac color = 0) := by
  refine ⟨?_, ?_, ?_, ?_⟩
  · intro bonuses color
    unfold colorBonus
    rw [if_pos rfl, mul_comm]
  · intro bonuses ac
    unfold colorBonus
    split_ifs with h1 h2
    · ring
    · ring
    · exact absurd rfl h2
  · intro bonuses ac color h1 h2
    unfold colorBonus
    rw [if_neg (fun hcontra => h1 hcontra), if_neg h2, zero_mul]
  · intro ac color
    unfold colorBonus
    split_ifs <;> simp

/-- Witness for C8: the spec's green/green scenario gives 3*12 = 36, and a
mismatched non-beige color gives 0. -/
theorem color_bonus_rule_witness :
    colorBonus [("green", 3)] (some "green") "green" = 36 ∧
    colorBonus [("green", 3)] (some "green") "blue" = 0 := by
  have h := color_bonus_rule
  constructor
  · rw [h.1 [("green", 3)] "green"]
    norm_num [List.lookup]
  · exact h.2.2.1 [("green", 3)] (some "green") "blue" (by simp) (by simp)

/-- C9 counterexample: with one spy and every other unit count zero the
wartime and peacetime upkeeps are both 2400 (spy upkeep is war-state
independent), so the claimed strict inequality fails even though at least
one unit count is positive. -/
theorem militaryUpkeep_spies_only_counterexample :
    spyWarNation.offensive_wars_count + spyWarNation.defensive_wars_count > 0 ∧
    spyPeaceNation.offensive_wars_count + spyPeaceNation.defensive_wars_count = 0 ∧
    spyWarNation.soldiers = spyPeaceNation.soldiers ∧
    spyWarNation.tanks = spyPeaceNation.tanks ∧
    spyWarNation.aircraft = spyPeaceNation.aircraft ∧
    spyWarNation.ships = spyPeaceNation.ships ∧
    spyWarNation.spies = spyPeaceNation.spies ∧
    spyWarNation.missiles = spyPeaceNation.missiles ∧
    spyWarNation.nukes = spyPeaceNation.nukes ∧
    spyPeaceNation.spies > 0 ∧
    militaryUpkeep spyWarNation = 2400 ∧
    militaryUpkeep spyPeaceNation = 2400 ∧
    ¬ militaryUpkeep spyPeaceNation < militaryUpkeep spyWarNation := by
  refine ⟨by decide, rfl, rfl, rfl, rfl, rfl, rfl, rfl, rfl, by decide, ?_, ?_, ?_⟩
  · norm_num [militaryUpkeep, spyWarNation, baseNation]
  · norm_num [militaryUpkeep, spyPeaceNation, baseNation]
  · norm_num [militaryUpkeep, spyWarNation, spyPeaceNation, baseNation]

/-- C9 amended: for identical unit counts, wartime upkeep strictly exceeds
peacetime upkeep whenever at least one of the soldiers, tanks, aircraft,
ships, missiles or nukes counts is positive; with only spies positive the
two upkeeps are equal, since spy upkeep is 2400 per spy in both states. -/
theorem militaryUpkeep_war_gt_peace (p w : Nation)
    (hs : w.soldiers = p.soldiers) (ht : w.tanks = p.tanks)
    (ha : w.aircraft = p.aircraft) (hsh : w.ships = p.ships)
    (hsp : w.spies = p.spies) (hm : w.missiles = p.missiles) (hn : w.nukes = p.nukes)
    (hw : w.offensive_wars_count + w.defensive_wars_count ≠ 0)
    (hp : p.offensive_wars_count + p.defensive_wars_count = 0)
    (hpos : 0 < p.soldiers + p.tanks + p.aircraft + p.ships + p.missiles + p.nukes) :
    militaryUpkeep p < militaryUpkeep w := by
  unfold militaryUpkeep
  rw [if_neg hw, if_pos hp, hs, ht, ha, hsh, hsp, hm, hn]
  have c0 : (0 : ℚ) ≤ (p.soldiers : ℚ) := Nat.cast_nonneg _
  have c1 : (0 : ℚ) ≤ (p.tanks : ℚ) := Nat.cast_nonneg _
  have c2 : (0 : ℚ) ≤ (p.aircraft : ℚ) := Nat.cast_nonneg _
  have c3 : (0 : ℚ) ≤ (p.ships : ℚ) := Nat.cast_nonneg _
  have c4 : (0 : ℚ) ≤ (p.missiles : ℚ) := Nat.cast_nonneg _
  have c5 : (0 : ℚ) ≤ (p.nukes : ℚ) := Nat.cast_nonneg _
  have hcase : 0 < p.soldiers ∨ 0 < p.tanks ∨ 0 < p.aircraft ∨ 0 < p.ships ∨
      0 < p.missiles ∨ 0 < p.nukes := by omega
  rcases hcase with h | h | h | h | h | h
  · have hone : (1 : ℚ) ≤ (p.soldiers : ℚ) := by exact_mod_cast h
    linarith
  · have hone : (1 : ℚ) ≤ (p.tanks : ℚ) := by exact_mod_cast h
    linarith
  · have hone : (1 : ℚ) ≤ (p.aircraft : ℚ) := by exact_mod_cast h
    linarith
  · have hone : (1 : ℚ) ≤ (p.ships : ℚ) := by exact_mod_cast h
    linarith
  · have hone : (1 : ℚ) ≤ (p.missiles : ℚ) := by exact_mod_cast h
    linarith
  · have hone : (1 : ℚ) ≤ (p.nukes : ℚ) := by exact_mod_cast h
    linarith

/-- Witness for the amended C9 theorem: one soldier, war versus peace. -/
theorem militaryUpkeep_war_gt_peace_witness :
    militaryUpkeep soldierPeaceNation < militaryUpkeep soldierWarNation :=
  militaryUpkeep_war_gt_peace soldierPeaceNation soldierWarNation
    rfl rfl rfl rfl rfl rfl rfl (by decide) rfl (by decide)

/-- C10: with OPEN_MARKETS the `1 + 0.01*increase` multiplier applies only
to the summed per-city gross income; the color bonus is added to
`gross_total` afterwards, unscaled. -/
theorem open_markets_scales_city_income_only (n : Nation) (g : GameInfo)
    (bonuses : List (String × ℚ)) (ac : Option String) (prices : Resource → ℚ)
    (h : n.domestic_policy = "OPEN_MARKETS") :
    (calcNationReport n g bonuses ac prices).income.gross_total =
      colorBonus bonuses ac n.color +
        (1 + 0.01 * domesticPolicyIncrease n) * nationCityGrossSum n := by
  simp only [calcNationReport, applyDomesticPolicy, if_pos h]
  ring

/-- Witness for C10 at a concrete OPEN_MARKETS nation. -/
theorem open_markets_scales_city_income_only_witness :
    (calcNationReport c10Nation januaryGame [] none DEFAULT_PRICES).income.gross_total =
      colorBonus [] none c10Nation.color +
        (1 + 0.01 * domesticPolicyIncrease c10Nation) * nationCityGrossSum c10Nation :=
  open_markets_scales_city_income_only c10Nation januaryGame [] none DEFAULT_PRICES rfl

end SunTzu
